import Mathlib

/-!
# dhsm-signer: the `sign` command and the signing context

A shallow embedding of `cmd/sign.go` and `signer/context.go`.

Conventions of the embedding.

* A Go `string` is a Lean `String`; `len(s) > 0` is `s.length > 0` and `len(s) == 0` is
  `s.length = 0`.
* A Go `error` is an `Option String` (`none` is `nil`, `some msg` carries the text of
  `Error()`); a Go result `(T, error)` is an `Except String T`.
* A call that may stop with a run-time panic returns a `Go α`: either `Go.ret a` or
  `Go.panic msg`.
* `uint32` fields are `Nat` with an explicit `% 2 ^ 32` where arithmetic may wrap.
* A `time.Time` is an instant, counted in seconds since the Unix epoch.
* What the two files call in other packages (viper, `time`, `os`, `path/filepath`,
  `miekg/dns`, `miekg/pkcs11`) and in files of the repository that are not part of the
  two sources (`filesExist`, `DurationToTime`, `Sign`, `addNSEC3Records`, ...) is a
  field of the environment `Env` or a parameter of the function that calls it.
-/

namespace DhsmSigner

/-! ## Go results -/

/-- The result of running a Go function body: it returns a value or it panics. -/
inductive Go (α : Type) where
  | ret (a : α)
  | panic (msg : String)
  deriving Repr, DecidableEq

/-- An instant (`time.Time`), in seconds since the Unix epoch. -/
abbrev Time := Int

/-- The run-time panic of a nil pointer dereference. -/
def nilDeref : String := "runtime error: invalid memory address or nil pointer dereference"

/-- The run-time panic of indexing a string at `len(s) - 1` when `s` is empty. -/
def indexMinusOne : String := "runtime error: index out of range [-1]"

/-- The run-time panic of indexing an empty slice at 0. -/
def indexZeroOfEmpty : String := "runtime error: index out of range [0] with length 0"

/-- The run-time panic of a type assertion on a value of another dynamic type. -/
def badAssertion : String := "interface conversion: dns.RR is not *dns.SOA"

/-! ## `cmd/sign.go`: expiration dates -/

/-- Models `getExpDate` of `cmd/sign.go`. `DurationToTime` is `tools.DurationToTime`, `timeParse`
is `time.Parse` applied to the layout `"20060102"` (a date of 8 digits, `YYYYMMDD`), and
`now` is the reading of `time.Now()` -/
def getExpDate (DurationToTime : Time → String → Except String Time)
    (timeParse : String → Except String Time) (now : Time)
    (durString expDate : String) (defaultDate : Time) : Except String Time :=
  if durString.length > 0 then
    DurationToTime now durString
  else if expDate.length > 0 then
    timeParse expDate
  else
    .ok defaultDate

/-! ## Configuration -/

/-- Models `ContextConfig`: the arguments common to signing and verifying. The record has the
fields of the struct declared in `signer/context.go` together with the fields that the
literal built by `newSignConfig` in `cmd/sign.go` sets (`DigestEnabled`, `Info` and the
three expiration dates). A field a literal leaves out has Go's zero value. -/
structure ContextConfig where
  Zone : String
  CreateKeys : Bool
  NSEC3 : Bool
  OptOut : Bool
  DigestEnabled : Bool
  Info : Bool
  MinTTL : Nat
  SignAlgorithm : String
  KSKExpDate : Time
  ZSKExpDate : Time
  RRSIGExpDate : Time
  FilePath : String
  OutputPath : String
  ExpDateStr : String
  deriving Repr, DecidableEq

/-- What `cmd/sign.go` reads from outside itself: the bound flags (viper), the clock,
the package-level defaults, and the helpers of other packages and files. -/
structure Env where
  /-- Models `viper.GetString` -/
  GetString : String → String
  /-- Models `viper.GetBool` -/
  GetBool : String → Bool
  /-- The error of `viper.BindPFlags(cmd.Flags())` -/
  BindPFlags : Option String
  /-- Models `filesExist` of package `cmd` -/
  filesExist : String → Option String
  /-- Models `tools.DurationToTime` -/
  DurationToTime : Time → String → Except String Time
  /-- Models `time.Parse("20060102", ·)` -/
  timeParse : String → Except String Time
  /-- Models `time.Now()`, one reading for each place of the source that calls it: 0, 1 and 2
  for the three calls of `getExpDate` in `newSignConfig`, 3 for `NewContext` -/
  Now : Nat → Time
  /-- Models `t.AddDate(years, months, days)` -/
  AddDate : Time → Int → Int → Int → Time
  DefaultKSKExpiration : Time
  DefaultZSKExpiration : Time
  DefaultRRSigExpiration : Time
  /-- Models `filepath.Ext` -/
  Ext : String → String
  /-- Models `filepath.Base` -/
  Base : String → String
  /-- Models `filepath.Dir` -/
  Dir : String → String
  /-- Models `filepath.Join` of two elements -/
  Join : String → String → String

/-- Models `strings.TrimSuffix`: `s` without the trailing `suffix`, or `s` itself when it does
not end with `suffix`. -/
def TrimSuffix (s suffix : String) : String :=
  if suffix.data.isSuffixOf s.data then
    String.mk (s.data.take (s.data.length - suffix.data.length))
  else s

/-- Models `newSignConfig` of `cmd/sign.go`. -/
def newSignConfig (env : Env) : Except String ContextConfig :=
  let createKeys := env.GetBool "create-keys"
  let zone := env.GetString "zone"
  let nsec3 := env.GetBool "nsec3"
  let optOut := env.GetBool "opt-out"
  let digest := env.GetBool "digest"
  let info := env.GetBool "info"
  let path := env.GetString "file"
  let out := env.GetString "output"
  let signAlgorithm := env.GetString "sign-algorithm"
  if path.length = 0 then
    .error "zone file not specified"
  else if zone.length = 0 then
    .error "zone not specified"
  else
    let out :=
      if out.length = 0 then
        let pathExt := env.Ext path
        let pathName := TrimSuffix (env.Base path) pathExt
        env.Join (env.Dir path) (pathName ++ "-signed" ++ pathExt)
      else out
    match env.filesExist path with
    | some err => .error err
    | none =>
      match getExpDate env.DurationToTime env.timeParse (env.Now 0)
          (env.GetString "zsk-duration") (env.GetString "zsk-expiration-date")
          env.DefaultZSKExpiration with
      | .error err => .error err
      | .ok kskExpDate =>
        match getExpDate env.DurationToTime env.timeParse (env.Now 1)
            (env.GetString "ksk-duration") (env.GetString "ksk-expiration-date")
            env.DefaultKSKExpiration with
        | .error err => .error err
        | .ok zskExpDate =>
          match getExpDate env.DurationToTime env.timeParse (env.Now 2)
              (env.GetString "rrsig-duration") (env.GetString "rrsig-expiration-date")
              env.DefaultRRSigExpiration with
          | .error err => .error err
          | .ok rrsigExpDate =>
            .ok {
              Zone := zone
              CreateKeys := createKeys
              NSEC3 := nsec3
              DigestEnabled := digest
              OptOut := optOut
              SignAlgorithm := signAlgorithm
              KSKExpDate := kskExpDate
              ZSKExpDate := zskExpDate
              RRSIGExpDate := rrsigExpDate
              FilePath := path
              OutputPath := out
              Info := info
              MinTTL := 0
              ExpDateStr := "" }

/-! ## `signer/context.go`: records and the zone parser -/

/-- Models `dns.TypeSOA`. -/
def TypeSOA : Nat := 6

/-- Models `dns.RR_Header`; the numeric fields are `uint16` (`Rrtype`, `Class`, `Rdlength`) and
`uint32` (`Ttl`). -/
structure RR_Header where
  Name : String
  Rrtype : Nat
  Class : Nat
  Ttl : Nat
  Rdlength : Nat
  deriving Repr, DecidableEq

/-- A resource record (`dns.RR`), by its dynamic type: a `*dns.SOA` with its fields, or a
record of another type with its rdata kept as it was parsed. -/
inductive RR where
  | SOA (Hdr : RR_Header) (Ns Mbox : String) (Serial Refresh Retry Expire Minttl : Nat)
  | other (Hdr : RR_Header) (rdata : String)
  deriving Repr, DecidableEq

/-- Models `rr.Header()`. -/
def RR.Header : RR → RR_Header
  | .SOA h _ _ _ _ _ _ _ => h
  | .other h _ => h

/-- Models `RRArray`, a slice of records. -/
abbrev RRArray := List RR

/-- What the reader `ctx.File` holds, as `dns.ZoneParser` sees it: the records it parses
one after the other, and then either the end of the input (`failure = none`) or the
parse error at which it stops (`failure = some e`). -/
structure ZoneInput where
  records : List RR
  failure : Option String
  deriving Repr, DecidableEq

/-- The state of a `dns.ZoneParser`: what is left to parse, and the error recorded so
far (what `Err()` returns). -/
structure ZoneParser where
  pending : List RR
  failure : Option String
  err : Option String
  deriving Repr, DecidableEq

/-- Models `dns.NewZoneParser(r, "", "")`: with an empty origin nothing can fail before the
first record is read, so no error is recorded yet. -/
def NewZoneParser (r : ZoneInput) : ZoneParser :=
  { pending := r.records, failure := r.failure, err := none }

/-- Models `zp.Err()`. -/
def ZoneParser.Err (zp : ZoneParser) : Option String := zp.err

/-- Models `zp.Next()`: the next record and `ok = true` (here `some rr`), or `ok = false`
(`none`) at the end of the input and at a parse error, which is then recorded. -/
def ZoneParser.Next (zp : ZoneParser) : Option RR × ZoneParser :=
  match zp.err with
  | some _ => (none, zp)
  | none =>
    match zp.pending with
    | [] => (none, { zp with err := zp.failure })
    | rr :: rest => (some rr, { zp with pending := rest })


/-! ## `signer/context.go`: the context -/

/-- An `io.WriteCloser` (the standard output or a created file): its name and the error
its `Close()` returns. -/
structure Writer where
  name : String
  closeErr : Option String
  deriving Repr, DecidableEq

/-- Models `Context`: the state of a zone signing process. `Config` is the embedded
`*ContextConfig`, `File` the reader (`none` is a nil reader), `Log` the lines written to
the logger so far. -/
structure Context where
  Config : ContextConfig
  SignExpDate : Time
  File : Option ZoneInput
  Output : Option Writer
  RRs : RRArray
  Log : List String
  SignAlgorithm : Nat
  deriving Repr, DecidableEq

/-- The loop of `ReadAndParseZone`,
`for rr, ok := zone.Next(); ok; rr, ok = zone.Next() { ... }`, on the parser, the slice
`rrs` and `ctx.MinTTL`. The slice holds pointers, so the record appended is the one whose
`Serial` the body then updates. -/
def ReadAndParseZone.loop (updateSerial : Bool) (zone : ZoneParser) (rrs : RRArray)
    (minTTL : Nat) : Go (ZoneParser × RRArray × Nat) :=
  match h : zone.Next with
  | (none, zone') => .ret (zone', rrs, minTTL)
  | (some rr, zone') =>
    if rr.Header.Rrtype = TypeSOA then
      match rr with
      | .SOA hdr ns mbox serial refresh retry expire minttl =>
        if updateSerial then
          ReadAndParseZone.loop updateSerial zone'
            (rrs ++ [.SOA hdr ns mbox ((serial + 2) % 2 ^ 32) refresh retry expire minttl])
            minttl
        else
          ReadAndParseZone.loop updateSerial zone' (rrs ++ [rr]) minttl
      | .other _ _ => .panic badAssertion
    else
      ReadAndParseZone.loop updateSerial zone' (rrs ++ [rr]) minTTL
termination_by zone.pending.length
decreasing_by
  all_goals
    simp only [ZoneParser.Next] at h
    split at h
    · simp at h
    · split at h
      · simp at h
      · rename_i hp
        simp only [Prod.mk.injEq] at h
        rw [← h.2, hp]
        simp

/-- Models `Context.ReadAndParseZone`. `sortRRs` is `sort.Sort` on an `RRArray`. The last byte of
`ctx.Zone` is `'.'` exactly when its last character is, `'.'` being an ASCII character. -/
def Context.ReadAndParseZone (sortRRs : RRArray → RRArray) (ctx : Context)
    (updateSerial : Bool) : Go (Option String × Context) :=
  match ctx.File with
  | none => .ret (some "no file defined on context", ctx)
  | some file =>
    match ctx.Config.Zone.data.getLast? with
    | none => .panic indexMinusOne
    | some last =>
      let ctx :=
        if last ≠ '.' then
          { ctx with Config := { ctx.Config with Zone := ctx.Config.Zone ++ "." } }
        else ctx
      let zone := NewZoneParser file
      match zone.Err with
      | some err => .ret (some err, ctx)
      | none =>
        match ReadAndParseZone.loop updateSerial zone [] ctx.Config.MinTTL with
        | .panic msg => .panic msg
        | .ret (_, rrs, minTTL) =>
          .ret (none, { ctx with Config := { ctx.Config with MinTTL := minTTL },
                                 RRs := sortRRs rrs })

/-- The loop of `AddNSEC13`, `for { if err := addNSEC3Records(...); err == nil { break } }`,
run for at most `fuel` attempts starting at attempt number `k`: the records and the number
of attempts made when it leaves the loop, `none` when `fuel` attempts all failed.
`addNSEC3Records k` is the `k`-th call of the method (each call draws a new salt). -/
def AddNSEC13.retry (addNSEC3Records : Nat → RRArray → String → Bool → RRArray × Option String)
    (zone : String) (optOut : Bool) : Nat → Nat → RRArray → Option (RRArray × Nat)
  | 0, _, _ => none
  | fuel + 1, k, rrs =>
    match addNSEC3Records k rrs zone optOut with
    | (rrs', none) => some (rrs', k + 1)
    | (rrs', some _) => AddNSEC13.retry addNSEC3Records zone optOut fuel (k + 1) rrs'

/-- Models `Context.AddNSEC13`, with the loop run for at most `fuel` attempts: the context it
leaves and the number of calls of `addNSEC3Records` it made, `none` when it is still in
the loop after `fuel` attempts. The Go method returns no value. -/
def Context.AddNSEC13
    (addNSEC3Records : Nat → RRArray → String → Bool → RRArray × Option String)
    (addNSECRecords : RRArray → String → RRArray) (fuel : Nat) (ctx : Context) :
    Option (Context × Nat) :=
  if ctx.Config.NSEC3 then
    match AddNSEC13.retry addNSEC3Records ctx.Config.Zone ctx.Config.OptOut fuel 0 ctx.RRs with
    | none => none
    | some (rrs, n) => some ({ ctx with RRs := rrs }, n)
  else
    some ({ ctx with RRs := addNSECRecords ctx.RRs ctx.Config.Zone }, 0)

/-! ## Sessions -/

/-- Models `pkcs11.CKF_SERIAL_SESSION`. -/
def CKF_SERIAL_SESSION : Nat := 4
/-- Models `pkcs11.CKF_RW_SESSION`. -/
def CKF_RW_SESSION : Nat := 2
/-- Models `pkcs11.CKU_USER`. -/
def CKU_USER : Nat := 1

/-- A loaded PKCS#11 module (`*pkcs11.Ctx`), by what its calls answer. -/
structure P11Ctx where
  /-- The error of `p.Initialize()` -/
  Initialize : Option String
  /-- Models `p.GetSlotList(tokenPresent)` -/
  GetSlotList : Bool → Except String (List Nat)
  /-- Models `p.OpenSession(slotID, flags)` -/
  OpenSession : Nat → Nat → Except String Nat
  /-- The error of `p.Login(session, userType, pin)` -/
  Login : Nat → Nat → String → Option String

/-- An opened `*os.File`: the name it was opened with, the flags and the permissions. -/
structure OsFile where
  name : String
  flag : Nat
  perm : Nat
  deriving Repr, DecidableEq

/-- The two implementations of `Session`, with the fields their constructors set. -/
inductive Session where
  | PKCS11Session (ctx : Context) (P11Context : P11Ctx) (Handle : Nat)
  | FileSession (ctx : Context) (kskReader zskReader : OsFile)

/-- Models `Context.NewPKCS11Session`. `pkcs11New` is `pkcs11.New`, which returns nil (`none`)
when the library cannot be loaded. -/
def Context.NewPKCS11Session (pkcs11New : String → Option P11Ctx) (ctx : Context)
    (key label p11lib : String) : Go (Except String Session) :=
  let _ := label
  match pkcs11New p11lib with
  | none => .ret (.error ("Error initializing " ++ p11lib ++ ": file not found\n"))
  | some p =>
    match p.Initialize with
    | some err =>
      .ret (.error ("Error initializing " ++ p11lib ++ ": " ++ err ++
        ". (Has the .db RW permission?)\n"))
    | none =>
      match p.GetSlotList true with
      | .error err => .ret (.error ("Error checking slots: " ++ err ++ "\n"))
      | .ok slots =>
        match slots with
        | [] => .panic indexZeroOfEmpty
        | slot0 :: _ =>
          match p.OpenSession slot0 (CKF_SERIAL_SESSION ||| CKF_RW_SESSION) with
          | .error err => .ret (.error ("Error creating session: " ++ err ++ "\n"))
          | .ok session =>
            match p.Login session CKU_USER key with
            | some err => .ret (.error ("Error login with provided key: " ++ err ++ "\n"))
            | none => .ret (.ok (.PKCS11Session ctx p session))

/-- Models `Context.NewFileSession(zsk, ksk)`. -/
def Context.NewFileSession (ctx : Context) (zsk ksk : OsFile) : Except String Session :=
  .ok (.FileSession ctx ksk zsk)

/-- Models `Context.Close`, on a pointer to a context (`none` is the nil pointer): reading
`ctx.Output` through a nil pointer panics. -/
def Context.Close : Option Context → Go (Option String)
  | none => .panic nilDeref
  | some ctx =>
    match ctx.Output with
    | some output =>
      match output.closeErr with
      | some err => .ret (some err)
      | none => .ret none
    | none => .ret none


/-! ## `NewContext` and the two commands -/

/-- What the commands use of the operating system, of the PKCS#11 library and of the
parts of the signing package that are not in `context.go`. -/
structure Sys where
  /-- The map `StringToSignAlgorithm`: `none` when the name is not a key -/
  StringToSignAlgorithm : String → Option Nat
  /-- Models `os.Open` on the zone file: what the reader holds, or the error -/
  osOpen : String → Except String ZoneInput
  /-- Models `os.Create` -/
  osCreate : String → Except String Writer
  /-- Models `os.Stdout` -/
  Stdout : Writer
  /-- The error of `os.OpenFile(name, flag, perm)`, if any -/
  OpenFileErr : String → Nat → Nat → Option String
  /-- Models `pkcs11.New` -/
  pkcs11New : String → Option P11Ctx
  /-- The error of `tools.Sign(session)`, if any -/
  Sign : Session → Option String
  /-- Models `session.End()` -/
  End : Session → Go (Option String)

/-- Models `NewContext` of `signer/context.go`: the new context, or the error (with which the
Go function returns a nil context). `log` is the logger, here the lines it has written. -/
def NewContext (env : Env) (sys : Sys) (config : ContextConfig) (log : List String) :
    Except String Context :=
  match sys.StringToSignAlgorithm config.SignAlgorithm with
  | none => .error "algorithm is not defined in config"
  | some algorithm =>
    let ctx : Context :=
      { Config := config
        Log := log
        SignExpDate := env.AddDate (env.Now 3) 1 0 0
        Output := some sys.Stdout
        SignAlgorithm := algorithm
        File := none
        RRs := [] }
    let opened : Except String Context :=
      if config.FilePath.length > 0 then
        match sys.osOpen config.FilePath with
        | .error err => .error err
        | .ok file => .ok { ctx with File := some file }
      else .ok ctx
    match opened with
    | .error err => .error err
    | .ok ctx =>
      let dated : Except String Context :=
        if config.ExpDateStr.length > 0 then
          match env.timeParse config.ExpDateStr with
          | .error err => .error ("cannot parse expiration date: " ++ err)
          | .ok parsedDate => .ok { ctx with SignExpDate := parsedDate }
        else .ok ctx
      match dated with
      | .error err => .error err
      | .ok ctx =>
        if config.OutputPath.length > 0 then
          match sys.osCreate config.OutputPath with
          | .error err =>
            .error ("couldn't create out file in path " ++ config.OutputPath ++ ": " ++ err)
          | .ok writer => .ok { ctx with Output := some writer }
        else .ok ctx

/-- The pointer a Go function returns next to an error: nil (`none`) when it failed. -/
def ptr {α : Type} : Except String α → Option α
  | .ok a => some a
  | .error _ => none

/-- A function body run under `defer d`: the deferred call runs when the body is left,
whether it returned or panicked; what the deferred call returns is dropped, and a panic
of either one leaves the function panicking. -/
def deferred {α β : Type} (d : Go β) (body : Go α) : Go α :=
  match body, d with
  | .ret a, .ret _ => .ret a
  | .ret _, .panic msg => .panic msg
  | .panic msg, .ret _ => .panic msg
  | .panic _, .panic msg => .panic msg

/-- What a run of a command leaves: the error it returns (`none` is nil), the session it
created if it came that far, and the lines it wrote to the log. -/
structure Run where
  err : Option String
  session : Option Session
  log : List String

/-- Models `os.O_RDWR`. -/
def O_RDWR : Nat := 2
/-- Models `os.O_CREATE`. -/
def O_CREATE : Nat := 64
/-- Models `os.O_TRUNC`. -/
def O_TRUNC : Nat := 512

/-- Models `signPKCS11` of `cmd/sign.go`. -/
def signPKCS11 (env : Env) (sys : Sys) : Go Run :=
  match env.BindPFlags with
  | some err => .ret ⟨some err, none, []⟩
  | none =>
    match newSignConfig env with
    | .error err => .ret ⟨some err, none, []⟩
    | .ok conf =>
      match NewContext env sys conf [] with
      | .error err => .ret ⟨some err, none, []⟩
      | .ok ctx =>
        deferred (Context.Close (some ctx)) <|
          let p11lib := env.GetString "p11lib"
          if p11lib.length = 0 then .ret ⟨some "p11lib not specified", none, []⟩
          else
            let key := env.GetString "user-key"
            if key.length = 0 then .ret ⟨some "user-key not specified", none, []⟩
            else
              let label := env.GetString "key-label"
              if label.length = 0 then .ret ⟨some "key-label not specified", none, []⟩
              else
                match env.filesExist p11lib with
                | some err => .ret ⟨some err, none, []⟩
                | none =>
                  match Context.NewPKCS11Session sys.pkcs11New ctx key label p11lib with
                  | .panic msg => .panic msg
                  | .ret (.error err) => .ret ⟨some err, none, []⟩
                  | .ret (.ok session) =>
                    deferred (sys.End session) <|
                      match sys.Sign session with
                      | some err => .ret ⟨some err, some session, ["zone could not be signed."]⟩
                      | none => .ret ⟨none, some session, ["zone signed successfully."]⟩

/-- Models `signFile` of `cmd/sign.go`. The call `defer ctx.Close()` stands before the test of
the error of `NewContext`, so it is deferred on the pointer that `NewContext` returned. -/
def signFile (env : Env) (sys : Sys) : Go Run :=
  match env.BindPFlags with
  | some err => .ret ⟨some err, none, []⟩
  | none =>
    match newSignConfig env with
    | .error err => .ret ⟨some err, none, []⟩
    | .ok conf =>
      let made := NewContext env sys conf []
      deferred (Context.Close (ptr made)) <|
        match made with
        | .error err => .ret ⟨some err, none, []⟩
        | .ok ctx =>
          let zskKeypath := env.GetString "ksk-keyfile"
          if zskKeypath.length = 0 then .ret ⟨some "ZSK keyfile not specified", none, []⟩
          else
            let kskKeypath := env.GetString "zsk-keyfile"
            if kskKeypath.length = 0 then .ret ⟨some "KSK keyfile not specified", none, []⟩
            else
              let fileFlags := O_RDWR ||| O_CREATE
              let fileFlags := if ctx.Config.CreateKeys then fileFlags ||| O_TRUNC else fileFlags
              match sys.OpenFileErr zskKeypath fileFlags 0o600 with
              | some err => .ret ⟨some err, none, []⟩
              | none =>
                let zskFile : OsFile := ⟨zskKeypath, fileFlags, 0o600⟩
                match sys.OpenFileErr kskKeypath fileFlags 0o600 with
                | some err => .ret ⟨some err, none, []⟩
                | none =>
                  let kskFile : OsFile := ⟨kskKeypath, fileFlags, 0o600⟩
                  match Context.NewFileSession ctx kskFile zskFile with
                  | .error err => .ret ⟨some err, none, []⟩
                  | .ok session =>
                    deferred (sys.End session) <|
                      match sys.Sign session with
                      | some err => .ret ⟨some err, some session, []⟩
                      | none => .ret ⟨none, some session, ["zone signed successfully."]⟩


/-! ## Reading the loops -/

/-- The body of the loop of `ReadAndParseZone` run over the records `zone.Next()` hands
out one after the other, by recursion on the list of them. `ReadAndParseZone.loop_eq`
shows it is what the loop computes. -/
def ReadAndParseZone.run (updateSerial : Bool) : List RR → RRArray → Nat → Go (RRArray × Nat)
  | [], rrs, minTTL => .ret (rrs, minTTL)
  | rr :: rest, rrs, minTTL =>
    if rr.Header.Rrtype = TypeSOA then
      match rr with
      | .SOA hdr ns mbox serial refresh retry expire minttl =>
        if updateSerial then
          ReadAndParseZone.run updateSerial rest
            (rrs ++ [.SOA hdr ns mbox ((serial + 2) % 2 ^ 32) refresh retry expire minttl])
            minttl
        else
          ReadAndParseZone.run updateSerial rest (rrs ++ [rr]) minttl
      | .other _ _ => .panic badAssertion
    else
      ReadAndParseZone.run updateSerial rest (rrs ++ [rr]) minTTL

/-- The result of the loop, from the result of `ReadAndParseZone.run`: when `Next()` has
returned `ok = false` nothing is pending and the parser has recorded the parse error, if
there was one. -/
def ReadAndParseZone.withParser (failure : Option String) :
    Go (RRArray × Nat) → Go (ZoneParser × RRArray × Nat)
  | .ret (rrs, minTTL) => .ret (⟨[], failure, failure⟩, rrs, minTTL)
  | .panic msg => .panic msg

/-! ## Notions used to state the properties -/

/-- The error a run returns, when it returns. -/
def returned : Go Run → Go (Option String)
  | .ret r => .ret r.err
  | .panic msg => .panic msg

/-- A record is a SOA record when the type in its header is `TypeSOA`. -/
def RR.isSOA (rr : RR) : Bool := rr.Header.Rrtype == TypeSOA

/-- Whether the dynamic type of a record is `*dns.SOA`. -/
def RR.isPtrSOA : RR → Bool
  | .SOA _ _ _ _ _ _ _ _ => true
  | .other _ _ => false

/-- The parser builds a record of type SOA as a `*dns.SOA`: in `records` every record
whose header says SOA has that dynamic type. -/
def WellTyped (records : List RR) : Prop :=
  ∀ rr ∈ records, rr.Header.Rrtype = TypeSOA → rr.isPtrSOA = true

instance decidableWellTyped (records : List RR) : Decidable (WellTyped records) := by
  unfold WellTyped
  infer_instance

/-- A record with the serial of a SOA record raised by 2 modulo 2^32: every other field,
and every record that is not a SOA record, stays as it is. -/
def serialPlus2 : RR → RR
  | .SOA hdr ns mbox serial refresh retry expire minttl =>
    if hdr.Rrtype = TypeSOA then
      .SOA hdr ns mbox ((serial + 2) % 2 ^ 32) refresh retry expire minttl
    else .SOA hdr ns mbox serial refresh retry expire minttl
  | .other hdr rdata => .other hdr rdata

/-- The MINIMUM fields of the SOA records of a list, in the order of the list. -/
def soaMinttls : List RR → List Nat
  | [] => []
  | .SOA hdr _ _ _ _ _ _ minttl :: rest =>
    if hdr.Rrtype = TypeSOA then minttl :: soaMinttls rest else soaMinttls rest
  | .other _ _ :: rest => soaMinttls rest

/-- The zone name as `ReadAndParseZone` leaves it: ending with the root label. -/
def withRootLabel (zone : String) : String :=
  match zone.data.getLast? with
  | some last => if last ≠ '.' then zone ++ "." else zone
  | none => zone

/-- The records as they are before call number `i` of `addNSEC3Records` (counted from
0) in the loop of `AddNSEC13`, when the loop starts with call number `k` on `rrs`. -/
def AddNSEC13.rrsBefore
    (addNSEC3Records : Nat → RRArray → String → Bool → RRArray × Option String)
    (zone : String) (optOut : Bool) (k : Nat) (rrs : RRArray) : Nat → RRArray
  | 0 => rrs
  | i + 1 =>
    (addNSEC3Records (k + i) (AddNSEC13.rrsBefore addNSEC3Records zone optOut k rrs i)
      zone optOut).1

/-- The error of call number `i` of `addNSEC3Records` in the loop of `AddNSEC13` run on
`ctx` (`none` when that call succeeds). -/
def AddNSEC13.attemptErr
    (addNSEC3Records : Nat → RRArray → String → Bool → RRArray × Option String)
    (ctx : Context) (i : Nat) : Option String :=
  (addNSEC3Records i
    (AddNSEC13.rrsBefore addNSEC3Records ctx.Config.Zone ctx.Config.OptOut 0 ctx.RRs i)
    ctx.Config.Zone ctx.Config.OptOut).2

/-! ## Concrete inputs -/

/-- The flags of `sign file -f example.com.zone -z example.com`, the others at the
defaults that `init` registers. -/
def defaultFlags (name : String) : String :=
  if name = "file" then "example.com.zone"
  else if name = "zone" then "example.com"
  else if name = "sign-algorithm" then "rsa"
  else if name = "user-key" then "1234"
  else if name = "key-label" then "HSM-tools"
  else if name = "zsk-keyfile" then "zsk.pem"
  else if name = "ksk-keyfile" then "ksk.pem"
  else ""

/-- The flags `flags` with the flag `name` set to `value`. -/
def setFlag (flags : String → String) (name value : String) : String → String :=
  fun n => if n = name then value else flags n

/-- An environment for the flags `flags`, started on 2026-11-04 00:00:00 UTC
(1793750400): the key defaults are one year later (1825286400), the RRSIG default three
months later (1801699200); the date parser knows 20300101 (1893456000), the duration
parser knows `1 day`; `AddDate` counts a year as 365 days and a month as 30; every file
exists. -/
def envOf (flags : String → String) : Env where
  GetString := flags
  GetBool := fun _ => false
  BindPFlags := none
  filesExist := fun _ => none
  DurationToTime := fun now dur =>
    if dur = "1 day" then .ok (now + 86400) else .error "cannot parse duration"
  timeParse := fun date =>
    if date = "20300101" then .ok 1893456000 else .error "cannot parse date"
  Now := fun _ => 1793750400
  AddDate := fun t years months days => t + years * 31536000 + months * 2592000 + days * 86400
  DefaultKSKExpiration := 1825286400
  DefaultZSKExpiration := 1825286400
  DefaultRRSigExpiration := 1801699200
  Ext := fun _ => ".zone"
  Base := fun path => path
  Dir := fun _ => "."
  Join := fun dir file => dir ++ "/" ++ file

/-- A PKCS#11 module that initialises and reports no slot with a token. -/
def noSlotModule : P11Ctx where
  Initialize := none
  GetSlotList := fun _ => .ok []
  OpenSession := fun _ _ => .ok 1
  Login := fun _ _ _ => none

/-- A zone of a SOA record and an A record, read to its end. -/
def soaRecord : RR :=
  .SOA ⟨"example.com.", 6, 1, 3600, 0⟩ "ns1.example.com." "admin.example.com."
    2024010101 7200 3600 1209600 300

/-- The A record of the example zone. -/
def aRecord : RR := .other ⟨"www.example.com.", 1, 1, 3600, 0⟩ "192.0.2.1"

/-- The example zone, read to its end. -/
def goodZone : ZoneInput := ⟨[aRecord, soaRecord], none⟩

/-- A malformed zone: the SOA record parses, then the parser stops with an error. -/
def brokenZone : ZoneInput := ⟨[soaRecord], some "dns: not a TTL: www at line: 2:4"⟩

/-- A system where only `rsa` is a signing algorithm, the zone file holds `goodZone` and
every file can be opened. -/
def exampleSys : Sys where
  StringToSignAlgorithm := fun name => if name = "rsa" then some 8 else none
  osOpen := fun _ => .ok goodZone
  osCreate := fun path => .ok ⟨path, none⟩
  Stdout := ⟨"/dev/stdout", none⟩
  OpenFileErr := fun _ _ _ => none
  pkcs11New := fun _ => some noSlotModule
  Sign := fun _ => none
  End := fun _ => .ret none

/-- The configuration of the examples. -/
def exampleConfig (zone : String) (nsec3 : Bool) : ContextConfig where
  Zone := zone
  CreateKeys := false
  NSEC3 := nsec3
  OptOut := false
  DigestEnabled := false
  Info := false
  MinTTL := 0
  SignAlgorithm := "rsa"
  KSKExpDate := 1825286400
  ZSKExpDate := 1825286400
  RRSIGExpDate := 1801699200
  FilePath := "example.com.zone"
  OutputPath := ""
  ExpDateStr := ""

/-- A context for the zone name `zone`, on the reader `file`. -/
def exampleCtx (zone : String) (file : Option ZoneInput) (nsec3 : Bool) : Context where
  Config := exampleConfig zone nsec3
  SignExpDate := 1825286400
  File := file
  Output := some ⟨"/dev/stdout", none⟩
  RRs := []
  Log := []
  SignAlgorithm := 8

/-- A sort of records by the type in their header. -/
def sortByType (rrs : RRArray) : RRArray :=
  rrs.insertionSort (fun a b => a.Header.Rrtype ≤ b.Header.Rrtype)

/-- An `addNSEC3Records` that finds a collision at every call and leaves the records
as they are. -/
def alwaysColliding : Nat → RRArray → String → Bool → RRArray × Option String :=
  fun _ rrs _ _ => (rrs, some "collision detected")

/-- An `addNSEC3Records` that finds a collision at calls 0 and 1 and succeeds at call
2, where it adds a record. -/
def collidingTwice : Nat → RRArray → String → Bool → RRArray × Option String :=
  fun k rrs _ _ =>
    if k < 2 then (rrs, some "collision detected") else (rrs ++ [aRecord], none)

/-- An `addNSECRecords` that leaves the records as they are. -/
def keepRecords : RRArray → String → RRArray := fun rrs _ => rrs

/-! ## Theorems -/

/-- The loop of `ReadAndParseZone`, started on a parser that has recorded no error, runs
its body over the pending records in order. -/
theorem ReadAndParseZone.loop_eq (updateSerial : Bool) (pending : List RR)
    (failure : Option String) (rrs : RRArray) (minTTL : Nat) :
    ReadAndParseZone.loop updateSerial ⟨pending, failure, none⟩ rrs minTTL =
      ReadAndParseZone.withParser failure
        (ReadAndParseZone.run updateSerial pending rrs minTTL) := by
  induction pending generalizing rrs minTTL with
  | nil =>
    rw [ReadAndParseZone.loop]
    simp [ZoneParser.Next, ReadAndParseZone.run, ReadAndParseZone.withParser]
  | cons rr rest ih =>
    rw [ReadAndParseZone.loop]
    simp only [ZoneParser.Next, ReadAndParseZone.run]
    by_cases hty : rr.Header.Rrtype = TypeSOA
    · cases rr with
      | SOA hdr ns mbox serial refresh retry expire minttl =>
        cases updateSerial <;> simp [hty, ih]
      | other hdr rdata => simp [hty, ReadAndParseZone.withParser]
    · simp only [hty, if_false, ih]

/-- A string has a positive length exactly when it is not the empty string. -/
theorem length_pos_iff (s : String) : s.length > 0 ↔ s ≠ "" := by
  cases s with
  | mk data =>
    cases data with
    | nil => simp [String.length]
    | cons c cs =>
      simp only [String.length, List.length_cons, gt_iff_lt, Nat.zero_lt_succ, ne_eq, true_iff]
      intro h
      have h2 := congrArg String.data h
      simp at h2

/-! ### C1: precedence in `getExpDate` -/

/-- C1: `getExpDate` resolves an expiration by strict precedence. When `durString` is not
empty the result is `DurationToTime(now, durString)` whatever `expDate` is; otherwise,
when `expDate` is not empty, it is the result of parsing `expDate` as a `YYYYMMDD` date
(the error of the parser when it does not parse); otherwise it is the default, with no
error. -/
theorem getExpDate_precedence (DurationToTime : Time → String → Except String Time)
    (timeParse : String → Except String Time) (now : Time) (durString expDate : String)
    (defaultDate : Time) :
    (durString ≠ "" →
      getExpDate DurationToTime timeParse now durString expDate defaultDate =
        DurationToTime now durString) ∧
    (durString = "" → expDate ≠ "" →
      getExpDate DurationToTime timeParse now durString expDate defaultDate =
        timeParse expDate) ∧
    (durString = "" → expDate = "" →
      getExpDate DurationToTime timeParse now durString expDate defaultDate =
        .ok defaultDate) := by
  refine ⟨?_, ?_, ?_⟩
  · intro hd
    have := (length_pos_iff durString).mpr hd
    simp [getExpDate, this]
  · intro hd he
    have := (length_pos_iff expDate).mpr he
    subst hd
    simp [getExpDate, this]
  · intro hd he
    subst hd he
    simp [getExpDate]

/-- C1 at concrete inputs: with both a duration and a date the duration wins, with a date
alone the date is parsed (and a date that does not parse is an error), with neither the
default is returned. -/
theorem getExpDate_precedence_witness :
    getExpDate (envOf defaultFlags).DurationToTime (envOf defaultFlags).timeParse
        1793750400 "1 day" "20300101" 1825286400 = .ok 1793836800 ∧
    getExpDate (envOf defaultFlags).DurationToTime (envOf defaultFlags).timeParse
        1793750400 "" "20300101" 1825286400 = .ok 1893456000 ∧
    getExpDate (envOf defaultFlags).DurationToTime (envOf defaultFlags).timeParse
        1793750400 "" "2030-01-01" 1825286400 = .error "cannot parse date" ∧
    getExpDate (envOf defaultFlags).DurationToTime (envOf defaultFlags).timeParse
        1793750400 "" "" 1825286400 = .ok 1825286400 := by
  have h1 := getExpDate_precedence (envOf defaultFlags).DurationToTime
    (envOf defaultFlags).timeParse 1793750400 "1 day" "20300101" 1825286400
  have h2 := getExpDate_precedence (envOf defaultFlags).DurationToTime
    (envOf defaultFlags).timeParse 1793750400 "" "20300101" 1825286400
  have h3 := getExpDate_precedence (envOf defaultFlags).DurationToTime
    (envOf defaultFlags).timeParse 1793750400 "" "2030-01-01" 1825286400
  have h4 := getExpDate_precedence (envOf defaultFlags).DurationToTime
    (envOf defaultFlags).timeParse 1793750400 "" "" 1825286400
  refine ⟨?_, ?_, ?_, ?_⟩
  · rw [h1.1 (by decide)]; rfl
  · rw [h2.2.1 rfl (by decide)]; rfl
  · rw [h3.2.1 rfl (by decide)]; rfl
  · rw [h4.2.2 rfl rfl]

/-! ### C2: the retry of `AddNSEC13` -/

/-- Starting the loop one call later, on the records the first call left. -/
theorem AddNSEC13.rrsBefore_succ
    (add : Nat → RRArray → String → Bool → RRArray × Option String)
    (zone : String) (optOut : Bool) (k : Nat) (rrs : RRArray) (i : Nat) :
    AddNSEC13.rrsBefore add zone optOut (k + 1) (add k rrs zone optOut).1 i =
      AddNSEC13.rrsBefore add zone optOut k rrs (i + 1) := by
  induction i with
  | zero => simp [AddNSEC13.rrsBefore]
  | succ i ih =>
    rw [AddNSEC13.rrsBefore, ih]
    have h : k + 1 + i = k + (i + 1) := by omega
    rw [h]
    rfl

/-- When call `k + j` is the first of the loop started at call `k` to return no error,
the loop is left after it, whatever fuel above `j` it is given. -/
theorem AddNSEC13.retry_first_success
    (add : Nat → RRArray → String → Bool → RRArray × Option String)
    (zone : String) (optOut : Bool) (j : Nat) :
    ∀ (k : Nat) (rrs : RRArray) (fuel : Nat), j < fuel →
      (∀ i, i < j →
        (add (k + i) (AddNSEC13.rrsBefore add zone optOut k rrs i) zone optOut).2.isSome
          = true) →
      (add (k + j) (AddNSEC13.rrsBefore add zone optOut k rrs j) zone optOut).2 = none →
      AddNSEC13.retry add zone optOut fuel k rrs =
        some (AddNSEC13.rrsBefore add zone optOut k rrs (j + 1), k + j + 1) := by
  induction j with
  | zero =>
    intro k rrs fuel hfuel _ hok
    obtain ⟨fuel, rfl⟩ : ∃ f, fuel = f + 1 := ⟨fuel - 1, by omega⟩
    simp only [AddNSEC13.rrsBefore, Nat.add_zero] at hok
    simp only [AddNSEC13.retry, AddNSEC13.rrsBefore, Nat.add_zero]
    cases hadd : add k rrs zone optOut with
    | mk rrs' err =>
      rw [hadd] at hok
      simp only at hok
      subst hok
      rfl
  | succ j ih =>
    intro k rrs fuel hfuel hfail hok
    obtain ⟨fuel, rfl⟩ : ∃ f, fuel = f + 1 := ⟨fuel - 1, by omega⟩
    have h0 := hfail 0 (by omega)
    simp only [AddNSEC13.rrsBefore, Nat.add_zero] at h0
    have hrest := ih (k + 1) (add k rrs zone optOut).1 fuel (by omega)
      (by
        intro i hi
        rw [AddNSEC13.rrsBefore_succ]
        have := hfail (i + 1) (by omega)
        have e : k + 1 + i = k + (i + 1) := by omega
        rw [e]
        exact this)
      (by
        rw [AddNSEC13.rrsBefore_succ]
        have e : k + 1 + j = k + (j + 1) := by omega
        rw [e]
        exact hok)
    rw [AddNSEC13.rrsBefore_succ] at hrest
    have e : k + 1 + j + 1 = k + (j + 1) + 1 := by omega
    rw [e] at hrest
    rw [← hrest]
    simp only [AddNSEC13.retry]
    cases hadd : add k rrs zone optOut with
    | mk rrs' err =>
      rw [hadd] at h0
      cases err with
      | none => simp at h0
      | some e => rfl

/-- When every call returns an error the loop is not left, whatever fuel it is given. -/
theorem AddNSEC13.retry_never
    (add : Nat → RRArray → String → Bool → RRArray × Option String)
    (zone : String) (optOut : Bool) (fuel : Nat) :
    ∀ (k : Nat) (rrs : RRArray),
      (∀ i,
        (add (k + i) (AddNSEC13.rrsBefore add zone optOut k rrs i) zone optOut).2.isSome
          = true) →
      AddNSEC13.retry add zone optOut fuel k rrs = none := by
  induction fuel with
  | zero => intro k rrs _; rfl
  | succ fuel ih =>
    intro k rrs hfail
    have h0 := hfail 0
    simp only [AddNSEC13.rrsBefore, Nat.add_zero] at h0
    have hrest := ih (k + 1) (add k rrs zone optOut).1 (by
      intro i
      rw [AddNSEC13.rrsBefore_succ]
      have := hfail (i + 1)
      have e : k + 1 + i = k + (i + 1) := by omega
      rw [e]
      exact this)
    rw [← hrest]
    simp only [AddNSEC13.retry]
    cases hadd : add k rrs zone optOut with
    | mk rrs' err =>
      rw [hadd] at h0
      cases err with
      | none => simp at h0
      | some e => rfl

/-- C2, as the code has it: a zone on which `addNSEC3Records` returns an error at every
call keeps `AddNSEC13` in its loop for ever. No number of attempts makes it return, and it
has no error to return. -/
theorem AddNSEC13_unbounded_counterexample :
    ¬ ∃ fuel, (Context.AddNSEC13 alwaysColliding keepRecords fuel
        (exampleCtx "example.com." (some goodZone) true)).isSome = true := by
  rintro ⟨fuel, h⟩
  have hnever := AddNSEC13.retry_never alwaysColliding "example.com." false fuel 0 []
    (by intro i; rfl)
  have hctx : Context.AddNSEC13 alwaysColliding keepRecords fuel
      (exampleCtx "example.com." (some goodZone) true) = none := by
    simp only [Context.AddNSEC13, exampleCtx, exampleConfig, if_true]
    rw [hnever]
  rw [hctx] at h
  simp at h

/-- C2, amended: with NSEC3 set, `AddNSEC13` calls `addNSEC3Records` until a call returns
no error. When call `k` (counted from 0) is the first one without an error it returns
after exactly `k + 1` calls, with the records that call left; when every call returns an
error it never returns. Without NSEC3 it calls `addNSECRecords` once and makes no call of
`addNSEC3Records`. -/
theorem AddNSEC13_retries_until_success
    (addNSEC3Records : Nat → RRArray → String → Bool → RRArray × Option String)
    (addNSECRecords : RRArray → String → RRArray) (ctx : Context) :
    (ctx.Config.NSEC3 = true →
      (∀ k, (∀ i, i < k → (AddNSEC13.attemptErr addNSEC3Records ctx i).isSome = true) →
          AddNSEC13.attemptErr addNSEC3Records ctx k = none →
          ∀ fuel, k < fuel →
            Context.AddNSEC13 addNSEC3Records addNSECRecords fuel ctx =
              some ({ ctx with
                      RRs := (AddNSEC13.rrsBefore addNSEC3Records ctx.Config.Zone
                        ctx.Config.OptOut 0 ctx.RRs (k + 1)) }, k + 1)) ∧
      ((∀ i, (AddNSEC13.attemptErr addNSEC3Records ctx i).isSome = true) →
          ∀ fuel, Context.AddNSEC13 addNSEC3Records addNSECRecords fuel ctx = none)) ∧
    (ctx.Config.NSEC3 = false →
      ∀ fuel, Context.AddNSEC13 addNSEC3Records addNSECRecords fuel ctx =
        some ({ ctx with RRs := addNSECRecords ctx.RRs ctx.Config.Zone }, 0)) := by
  refine ⟨fun hn => ⟨?_, ?_⟩, ?_⟩
  · intro k hfail hok fuel hfuel
    have h := AddNSEC13.retry_first_success addNSEC3Records ctx.Config.Zone
      ctx.Config.OptOut k 0 ctx.RRs fuel hfuel
      (by intro i hi; simpa [AddNSEC13.attemptErr] using hfail i hi)
      (by simpa [AddNSEC13.attemptErr] using hok)
    simp only [Context.AddNSEC13, hn, if_true, h, Nat.zero_add]
  · intro hfail fuel
    have h := AddNSEC13.retry_never addNSEC3Records ctx.Config.Zone ctx.Config.OptOut
      fuel 0 ctx.RRs (by intro i; simpa [AddNSEC13.attemptErr] using hfail i)
    simp only [Context.AddNSEC13, hn, if_true, h]
  · intro hn fuel
    simp [Context.AddNSEC13, hn]

/-- C2 amended, at a concrete input: when calls 0 and 1 find a collision and call 2 does
not, `AddNSEC13` returns after 3 calls with the records of the third. -/
theorem AddNSEC13_retries_until_success_witness :
    Context.AddNSEC13 collidingTwice keepRecords 5
        (exampleCtx "example.com." (some goodZone) true) =
      some ({ exampleCtx "example.com." (some goodZone) true with RRs := [aRecord] }, 3) :=
  ((AddNSEC13_retries_until_success collidingTwice keepRecords
      (exampleCtx "example.com." (some goodZone) true)).1 rfl).1 2
    (by intro i hi; interval_cases i <;> rfl) rfl 5 (by decide)

/-! ### `ReadAndParseZone` on a well-typed input -/

/-- The last element of a list with one more element in front. -/
theorem getLast?_getD_cons (a d : Nat) (l : List Nat) :
    ((a :: l).getLast?).getD d = (l.getLast?).getD a := by
  cases l with
  | nil => rfl
  | cons b l => simp [List.getLast?_cons]

/-- On well-typed records the body of the loop never panics: it appends every record,
a SOA record with its serial raised by 2 when `updateSerial` is set, and leaves in
`MinTTL` the MINIMUM of the last SOA record. -/
theorem ReadAndParseZone.run_eq (updateSerial : Bool) (records : List RR)
    (hty : WellTyped records) (rrs : RRArray) (minTTL : Nat) :
    ReadAndParseZone.run updateSerial records rrs minTTL =
      .ret (rrs ++ records.map (fun rr => if updateSerial then serialPlus2 rr else rr),
        ((soaMinttls records).getLast?).getD minTTL) := by
  induction records generalizing rrs minTTL with
  | nil => simp [ReadAndParseZone.run, soaMinttls]
  | cons rr rest ih =>
    have hrest : WellTyped rest := fun r hr => hty r (List.mem_cons_of_mem _ hr)
    have hrr := hty rr (List.mem_cons_self _ _)
    cases rr with
    | SOA hdr ns mbox serial refresh retry expire minttl =>
      by_cases hsoa : hdr.Rrtype = TypeSOA
      · cases updateSerial <;>
          simp [ReadAndParseZone.run, RR.Header, hsoa, ih hrest, soaMinttls, serialPlus2,
            getLast?_getD_cons]
      · cases updateSerial <;>
          simp [ReadAndParseZone.run, RR.Header, hsoa, ih hrest, soaMinttls, serialPlus2]
    | other hdr rdata =>
      by_cases hsoa : hdr.Rrtype = TypeSOA
      · exact absurd (hrr hsoa) (by simp [RR.isPtrSOA])
      · cases updateSerial <;>
          simp [ReadAndParseZone.run, RR.Header, hsoa, ih hrest, soaMinttls, serialPlus2]

/-- A string that is not empty has a last character. -/
theorem getLast?_of_ne_empty (s : String) (h : s ≠ "") : ∃ c, s.data.getLast? = some c := by
  cases s with
  | mk data =>
    cases hd : data.getLast? with
    | some c => exact ⟨c, by simp [hd]⟩
    | none =>
      rw [List.getLast?_eq_none_iff] at hd
      subst hd
      exact absurd rfl h

/-- What `ReadAndParseZone` does on a reader that is there, a zone name that is not empty
and well-typed records: it returns no error, whether or not the parser stopped at a parse
error, and leaves the zone name with its root label, the MINIMUM of the last SOA record
and the sorted records. -/
theorem ReadAndParseZone_eq (sortRRs : RRArray → RRArray) (ctx : Context)
    (file : ZoneInput) (updateSerial : Bool) (hfile : ctx.File = some file)
    (hzone : ctx.Config.Zone ≠ "") (hty : WellTyped file.records) :
    Context.ReadAndParseZone sortRRs ctx updateSerial =
      .ret (none,
        { ctx with
          Config := { ctx.Config with
            Zone := withRootLabel ctx.Config.Zone
            MinTTL := ((soaMinttls file.records).getLast?).getD ctx.Config.MinTTL }
          RRs := sortRRs
            (file.records.map (fun rr => if updateSerial then serialPlus2 rr else rr)) }) := by
  obtain ⟨c, hc⟩ := getLast?_of_ne_empty _ hzone
  simp only [Context.ReadAndParseZone, hfile, hc, NewZoneParser, ZoneParser.Err,
    ReadAndParseZone.loop_eq, ReadAndParseZone.run_eq updateSerial file.records hty,
    ReadAndParseZone.withParser, withRootLabel, List.nil_append]
  by_cases hdot : c = '.'
  · simp [hdot, hfile]
  · simp [hdot, hfile]

/-- The MINIMUM fields of the SOA records of two lists put end to end. -/
theorem soaMinttls_append (l₁ l₂ : List RR) :
    soaMinttls (l₁ ++ l₂) = soaMinttls l₁ ++ soaMinttls l₂ := by
  induction l₁ with
  | nil => rfl
  | cons rr rest ih =>
    cases rr with
    | SOA hdr ns mbox serial refresh retry expire minttl =>
      by_cases hsoa : hdr.Rrtype = TypeSOA <;> simp [soaMinttls, hsoa, ih]
    | other hdr rdata => simp [soaMinttls, ih]

/-- A list without a SOA record has no MINIMUM field to give. -/
theorem soaMinttls_of_no_SOA (l : List RR) (h : ∀ rr ∈ l, rr.isSOA = false) :
    soaMinttls l = [] := by
  induction l with
  | nil => rfl
  | cons rr rest ih =>
    have hrest := ih (fun r hr => h r (List.mem_cons_of_mem _ hr))
    have hrr := h rr (List.mem_cons_self _ _)
    cases rr with
    | SOA hdr ns mbox serial refresh retry expire minttl =>
      have hsoa : ¬ hdr.Rrtype = TypeSOA := by simpa [RR.isSOA, RR.Header] using hrr
      simp [soaMinttls, hsoa, hrest]
    | other hdr rdata => simp [soaMinttls, hrest]

/-! ### C3 and C4: the errors of `ReadAndParseZone` -/

/-- C3, on the code: when the SOA record of a zone parses and the parser then stops
with a parse error, `ReadAndParseZone` returns a nil error and stores the one record read
before the error. The only call of `zone.Err()` stands before the first `zone.Next()`. -/
theorem ReadAndParseZone_parse_error_unreported :
    Context.ReadAndParseZone sortByType
        (exampleCtx "example.com." (some brokenZone) false) false =
      .ret (none,
        { exampleCtx "example.com." (some brokenZone) false with
          Config := { exampleConfig "example.com." false with MinTTL := 300 }
          RRs := [soaRecord] }) := by
  rw [ReadAndParseZone_eq sortByType _ brokenZone false rfl (by decide) (by decide)]
  decide

/-- C4, on the code: with a reader and an empty zone name `ReadAndParseZone` panics on the
index `len(ctx.Zone)-1`; with no reader it returns the error `no file defined on context`
and leaves the context, its records included, as it was, whatever the zone name is. -/
theorem ReadAndParseZone_empty_zone_panics :
    Context.ReadAndParseZone sortByType (exampleCtx "" (some goodZone) false) false =
      .panic indexMinusOne ∧
    Context.ReadAndParseZone sortByType (exampleCtx "example.com" none false) false =
      .ret (some "no file defined on context", exampleCtx "example.com" none false) ∧
    Context.ReadAndParseZone sortByType (exampleCtx "" none false) false =
      .ret (some "no file defined on context", exampleCtx "" none false) := by
  refine ⟨?_, ?_, ?_⟩ <;> rfl

/-! ### C7 and C8: the serial and the minimum TTL -/

/-- C7: `ReadAndParseZone` raises the SOA serial by exactly 2 when, and only when, it is
asked to. On every parsed stream of records (the reader is there, the zone name is not
empty), with `updateSerial = true` the records stored in `ctx.RRs` are the parsed records,
sorted, where each SOA record has its serial plus 2 modulo 2^32 and nothing else is
changed; with `updateSerial = false` they are the parsed records, sorted. -/
theorem ReadAndParseZone_serial (sortRRs : RRArray → RRArray)
    (hsort : ∀ l, (sortRRs l).Perm l) (ctx : Context) (file : ZoneInput)
    (hfile : ctx.File = some file) (hzone : ctx.Config.Zone ≠ "")
    (hty : WellTyped file.records) :
    (∃ ctx', Context.ReadAndParseZone sortRRs ctx true = .ret (none, ctx') ∧
        ctx'.RRs = sortRRs (file.records.map serialPlus2) ∧
        ctx'.RRs.Perm (file.records.map serialPlus2)) ∧
    (∃ ctx', Context.ReadAndParseZone sortRRs ctx false = .ret (none, ctx') ∧
        ctx'.RRs = sortRRs file.records ∧
        ctx'.RRs.Perm file.records) := by
  refine ⟨⟨_, ReadAndParseZone_eq sortRRs ctx file true hfile hzone hty, ?_, ?_⟩,
    ⟨_, ReadAndParseZone_eq sortRRs ctx file false hfile hzone hty, ?_, ?_⟩⟩
  · simp
  · simpa using hsort _
  · simp
  · simpa using hsort _

/-- C7 at a concrete input: the zone of an A record and a SOA record of serial
2024010101, read with `updateSerial = true`, leaves the A record as parsed and the SOA
record with serial 2024010103. -/
theorem ReadAndParseZone_serial_witness :
    ∃ ctx', Context.ReadAndParseZone sortByType
        (exampleCtx "example.com" (some goodZone) false) true = .ret (none, ctx') ∧
      ctx'.RRs = [aRecord,
        .SOA ⟨"example.com.", 6, 1, 3600, 0⟩ "ns1.example.com." "admin.example.com."
          2024010103 7200 3600 1209600 300] := by
  obtain ⟨ctx', hrun, hrrs, _⟩ :=
    (ReadAndParseZone_serial sortByType (fun l => List.perm_insertionSort _ l)
      (exampleCtx "example.com" (some goodZone) false) goodZone rfl (by decide)
      (by decide)).1
  exact ⟨ctx', hrun, hrrs.trans (by decide)⟩

/-- C8: after `ReadAndParseZone` the context's `MinTTL` is the MINIMUM field of the zone's
SOA record. On every parsed stream of records and for both values of `updateSerial` the
call succeeds, and `MinTTL` is the `Minttl` of the SOA record after which the stream holds
no SOA record (the only one when there is exactly one, wherever it sits; the last one in
input order when there are several); when the stream holds no SOA record `MinTTL` keeps
the value it had. -/
theorem ReadAndParseZone_MinTTL (sortRRs : RRArray → RRArray) (ctx : Context)
    (file : ZoneInput) (updateSerial : Bool) (hfile : ctx.File = some file)
    (hzone : ctx.Config.Zone ≠ "") (hty : WellTyped file.records) :
    ∃ ctx', Context.ReadAndParseZone sortRRs ctx updateSerial = .ret (none, ctx') ∧
      (∀ before after hdr ns mbox serial refresh retry expire minttl,
        file.records = before ++ .SOA hdr ns mbox serial refresh retry expire minttl :: after →
        hdr.Rrtype = TypeSOA → (∀ rr ∈ after, rr.isSOA = false) →
        ctx'.Config.MinTTL = minttl) ∧
      ((∀ rr ∈ file.records, rr.isSOA = false) →
        ctx'.Config.MinTTL = ctx.Config.MinTTL) := by
  refine ⟨_, ReadAndParseZone_eq sortRRs ctx file updateSerial hfile hzone hty, ?_, ?_⟩
  · intro before after hdr ns mbox serial refresh retry expire minttl hrec hsoa hafter
    simp [hrec, soaMinttls_append, soaMinttls, hsoa, soaMinttls_of_no_SOA after hafter]
  · intro hnone
    simp [soaMinttls_of_no_SOA _ hnone]

/-- C8 at a concrete input: the zone of an A record followed by a SOA record of MINIMUM
300, read into a context whose `MinTTL` is 0, leaves `MinTTL` at 300. -/
theorem ReadAndParseZone_MinTTL_witness :
    ∃ ctx', Context.ReadAndParseZone sortByType
        (exampleCtx "example.com" (some goodZone) false) false = .ret (none, ctx') ∧
      ctx'.Config.MinTTL = 300 := by
  obtain ⟨ctx', hrun, hlast, _⟩ :=
    ReadAndParseZone_MinTTL sortByType (exampleCtx "example.com" (some goodZone) false)
      goodZone false rfl (by decide) (by decide)
  exact ⟨ctx', hrun, hlast [aRecord] [] _ _ _ _ _ _ _ 300 rfl rfl (by simp)⟩

/-! ### C5: the expirations in `newSignConfig` -/

/-- Where the three expirations of the configuration come from: `KSKExpDate` is resolved
from the `zsk-*` flags and the ZSK default, `ZSKExpDate` from the `ksk-*` flags and the
KSK default, `RRSIGExpDate` from the `rrsig-*` flags and the RRSIG default. -/
theorem newSignConfig_expirations (env : Env) (conf : ContextConfig)
    (h : newSignConfig env = .ok conf) :
    getExpDate env.DurationToTime env.timeParse (env.Now 0) (env.GetString "zsk-duration")
        (env.GetString "zsk-expiration-date") env.DefaultZSKExpiration
      = .ok conf.KSKExpDate ∧
    getExpDate env.DurationToTime env.timeParse (env.Now 1) (env.GetString "ksk-duration")
        (env.GetString "ksk-expiration-date") env.DefaultKSKExpiration
      = .ok conf.ZSKExpDate ∧
    getExpDate env.DurationToTime env.timeParse (env.Now 2) (env.GetString "rrsig-duration")
        (env.GetString "rrsig-expiration-date") env.DefaultRRSigExpiration
      = .ok conf.RRSIGExpDate := by
  unfold newSignConfig at h
  simp only at h
  split at h
  · simp at h
  · split at h
    · simp at h
    · split at h
      · simp at h
      · split at h
        · simp at h
        · split at h
          · simp at h
          · split at h
            · simp at h
            · simp only [Except.ok.injEq] at h
              subst h
              refine ⟨?_, ?_, ?_⟩ <;> assumption

/-- C5, on the code: with `--zsk-expiration-date 20300101` and no other expiration flag,
`newSignConfig` returns a configuration whose `KSKExpDate` is 2030-01-01 (1893456000) and
whose `ZSKExpDate` is the default, although resolving the `ksk-*` flags gives the default
and resolving the `zsk-*` flags gives 2030-01-01; without that flag `KSKExpDate` is the
default, so a change of a `zsk-*` flag alone changes `KSKExpDate`. -/
theorem newSignConfig_swaps_key_expirations :
    (∃ conf, newSignConfig (envOf (setFlag defaultFlags "zsk-expiration-date" "20300101"))
          = .ok conf ∧
        conf.KSKExpDate = 1893456000 ∧ conf.ZSKExpDate = 1825286400) ∧
    getExpDate (envOf defaultFlags).DurationToTime (envOf defaultFlags).timeParse
        1793750400 "" "" (envOf defaultFlags).DefaultKSKExpiration = .ok 1825286400 ∧
    getExpDate (envOf defaultFlags).DurationToTime (envOf defaultFlags).timeParse
        1793750400 "" "20300101" (envOf defaultFlags).DefaultZSKExpiration
      = .ok 1893456000 ∧
    (∃ conf, newSignConfig (envOf defaultFlags) = .ok conf ∧
        conf.KSKExpDate = 1825286400) :=
  ⟨⟨_, rfl, rfl, rfl⟩, rfl, rfl, ⟨_, rfl, rfl⟩⟩

/-! ### C6: a module without a slot -/

/-- C6, on the code: whenever the library loads, the module initialises and its slot list
is empty, `NewPKCS11Session` panics on `slots[0]`; it returns neither a session nor an
error. -/
theorem NewPKCS11Session_no_slot_panics (pkcs11New : String → Option P11Ctx)
    (ctx : Context) (key label p11lib : String) (p : P11Ctx)
    (hnew : pkcs11New p11lib = some p) (hinit : p.Initialize = none)
    (hslots : p.GetSlotList true = .ok []) :
    Context.NewPKCS11Session pkcs11New ctx key label p11lib = .panic indexZeroOfEmpty := by
  simp [Context.NewPKCS11Session, hnew, hinit, hslots]

/-- C6 at a concrete input: the module `noSlotModule`, logged in with the default user
key. -/
theorem NewPKCS11Session_no_slot_panics_witness :
    Context.NewPKCS11Session exampleSys.pkcs11New
        (exampleCtx "example.com." (some goodZone) false) "1234" "HSM-tools"
        "/usr/lib/softhsm/libsofthsm2.so" = .panic indexZeroOfEmpty :=
  NewPKCS11Session_no_slot_panics exampleSys.pkcs11New
    (exampleCtx "example.com." (some goodZone) false) "1234" "HSM-tools"
    "/usr/lib/softhsm/libsofthsm2.so" noSlotModule rfl rfl rfl

/-! ### C9 and C10: the two commands -/

/-- C9, on the code: with an empty `zsk-keyfile` flag (and `ksk-keyfile` at its default)
`signFile` returns `KSK keyfile not specified`, and with an empty `ksk-keyfile` flag
`ZSK keyfile not specified`: the two messages are exchanged. With both flags at their
defaults it creates a file session that reads the ZSK from the file opened at the
`zsk-keyfile` path and the KSK from the file opened at the `ksk-keyfile` path. -/
theorem signFile_keyfile_messages_exchanged :
    returned (signFile (envOf (setFlag defaultFlags "zsk-keyfile" "")) exampleSys) =
      .ret (some "KSK keyfile not specified") ∧
    returned (signFile (envOf (setFlag defaultFlags "ksk-keyfile" "")) exampleSys) =
      .ret (some "ZSK keyfile not specified") ∧
    (∃ ctx kskReader zskReader log,
      signFile (envOf defaultFlags) exampleSys =
        .ret ⟨none, some (.FileSession ctx kskReader zskReader), log⟩ ∧
      zskReader.name = "zsk.pem" ∧ kskReader.name = "ksk.pem") :=
  ⟨rfl, rfl, ⟨_, _, _, _, rfl, rfl, rfl⟩⟩

/-- C10, on the code: with a signing algorithm that is not registered, `NewContext` fails
on the configuration that `newSignConfig` built, `signPKCS11` returns that error, and
`signFile` panics: its deferred `ctx.Close()` runs on the nil context. -/
theorem signFile_nil_context_panics :
    (∃ conf, newSignConfig (envOf (setFlag defaultFlags "sign-algorithm" "unknown"))
          = .ok conf ∧
        NewContext (envOf (setFlag defaultFlags "sign-algorithm" "unknown")) exampleSys
          conf [] = .error "algorithm is not defined in config") ∧
    returned (signPKCS11 (envOf (setFlag defaultFlags "sign-algorithm" "unknown"))
        exampleSys) = .ret (some "algorithm is not defined in config") ∧
    returned (signFile (envOf (setFlag defaultFlags "sign-algorithm" "unknown"))
        exampleSys) = .panic nilDeref :=
  ⟨⟨_, rfl, rfl⟩, rfl, rfl⟩

end DhsmSigner
